import Mathlib

/-!
Shallow embedding of the FastPy routing and parameter-binding engine
(`src/core.py`, `src/fastpy_rest/params.py`, `src/fastpy_rest/requests.py`,
`src/fastpy_rest/main.py`) together with theorems settling the frozen claims
about it.

Conventions of the embedding:
* Python runtime values that flow through the binder are modelled by `PyVal`;
  type annotations used as converters (`int`, `str`, pydantic model classes,
  the `Request` class) are modelled by `Conv`, applied via `applyConv` which
  returns `none` exactly when the Python call would raise.
* A Python function that may raise is modelled with `PyOutcome`:
  `.httpError code field` is a raised `HttpException(code, msg)` whose message
  names `field`; `.pyError kind info` is any other uncaught Python exception
  (`KeyError`, `ValueError`, ...).
* Python `dict`s keyed by strings are association lists updated by `upsert`
  (replace in place if the key exists, else append), matching insertion order.
* Python `set`s have no guaranteed iteration order; wherever the source
  iterates a set, the embedding takes the iteration order as an explicit list.
-/

/-- Runtime values handled by the binder: strings and ints from the wire,
plus the sentinel/default objects the classifier inspects with
`isinstance` (`Headers()`, `Cookies()`, pydantic model instances, `None`). -/
inductive PyVal where
  | vstr : String → PyVal
  | vint : Int → PyVal
  | headersV : PyVal
  | cookiesV : PyVal
  | modelV : String → PyVal
  | noneV : PyVal
deriving DecidableEq, Repr

/-- Type annotations used as converters by the source (`var_types` values):
`int`, `str`, a pydantic model class, or the `Request` class. -/
inductive Conv where
  | cint : Conv
  | cstr : Conv
  | cmodel : String → Conv
  | crequest : Conv
deriving DecidableEq, Repr

/-- Outcome of running a piece of Python code that may raise:
a normal value, a raised `HttpException (code, message-naming-field)`, or an
uncaught non-HTTP exception (kind, offending key/input). -/
inductive PyOutcome (α : Type) where
  | ok : α → PyOutcome α
  | httpError : Nat → String → PyOutcome α
  | pyError : String → String → PyOutcome α
deriving DecidableEq, Repr

/-- `src/core.py` `Method`. -/
inductive Method where
  | GET | POST | PUT | PATCH | DELETE
deriving DecidableEq, Repr

/-- The characters Python's default `str.strip()` removes. -/
def isPySpace (c : Char) : Bool :=
  c = ' ' || c = '\t' || c = '\n' || c = '\r' || c = '\x0b' || c = '\x0c'

/-- Python `s.strip()` with no argument. -/
def pyStrip (s : String) : String :=
  String.mk (((s.data.dropWhile isPySpace).reverse.dropWhile isPySpace).reverse)

/-- Scanner for Python `s.split(sep)` with a non-empty separator: emit the
piece accumulated so far at each (non-overlapping, leftmost) occurrence of
the separator.  The fuel is the character count; every step consumes at
least one character. -/
def pySplitAux (sep : List Char) : Nat → List Char → List Char → List (List Char)
  | _, [], acc => [acc.reverse]
  | 0, cs, acc => [acc.reverse ++ cs]
  | fuel + 1, c :: rest, acc =>
    if sep.isPrefixOf (c :: rest) then
      acc.reverse :: pySplitAux sep fuel ((c :: rest).drop sep.length) []
    else pySplitAux sep fuel rest (c :: acc)

/-- Python `s.split(sep)` for a non-empty separator (`""` yields `[""]`,
empty pieces are preserved). -/
def pySplit (s sep : String) : List String :=
  (pySplitAux sep.data s.data.length s.data []).map String.mk

/-- Digits of a decimal literal, `none` if empty or a non-digit appears. -/
def digitsToNat (cs : List Char) : Option Nat :=
  if cs.isEmpty then none
  else cs.foldl
    (fun acc? c => acc?.bind fun acc =>
      if c.isDigit then some (acc * 10 + (c.toNat - 48)) else none)
    (some 0)

/-- Python `int(s)` on a string: optional surrounding whitespace, optional
sign, then decimal digits; `none` models a raised `ValueError`. -/
def pyIntOfString (s : String) : Option Int :=
  match (pyStrip s).data with
  | [] => none
  | c :: rest =>
    if c = '-' then (digitsToNat rest).map (fun n => -(n : Int))
    else if c = '+' then (digitsToNat rest).map Int.ofNat
    else (digitsToNat (c :: rest)).map Int.ofNat

/-- Applying an annotation as a converter callable, as the source does with
`self.var_types[p](val)`.  `none` models the call raising.  `str(...)` of the
empty sentinel containers renders as the empty string (their `__str__`);
calling a pydantic model class or `Request` positionally raises. -/
def applyConv : Conv → PyVal → Option PyVal
  | .cint, .vstr s => (pyIntOfString s).map PyVal.vint
  | .cint, .vint n => some (.vint n)
  | .cint, _ => none
  | .cstr, .vstr s => some (.vstr s)
  | .cstr, .vint n => some (.vstr (toString n))
  | .cstr, .headersV => some (.vstr "")
  | .cstr, .cookiesV => some (.vstr "")
  | .cstr, .modelV m => some (.vstr m)
  | .cstr, .noneV => some (.vstr "None")
  | .cmodel _, _ => none
  | .crequest, _ => none

/-- Python dict assignment `d[k] = v` on an insertion-ordered assoc list. -/
def upsert {α : Type} (l : List (String × α)) (k : String) (v : α) :
    List (String × α) :=
  if l.any (fun p => p.1 == k) then
    l.map (fun p => if p.1 == k then (k, v) else p)
  else l ++ [(k, v)]

/-- The route descriptor built by `RegisteredPaths.add_api_route`
(`src/core.py`, `PathInfo`).  `pathParams`, `queryParams`, `headerParams`,
`cookieParams` are Python sets; the lists record one iteration order. -/
structure PathInfo where
  route : String
  pathParams : List String
  queryParams : List String
  headerParams : List String
  cookieParams : List String
  defaults : List (String × PyVal)
  varTypes : List (String × Conv)
  body : Option String
  requestParam : Option String
deriving DecidableEq, Repr

/-- `RegisteredPaths.paths`: dict from literal prefix to the descriptors
registered under it, in registration order. -/
abbrev Registry := List (String × List PathInfo)

/-- `route[:-1]` applied when `route.endswith("/")`
(`get_api_path_info`, lines 193-194). -/
def stripTrailingSlash (s : String) : String :=
  if s.data.getLast? == some '/' then String.mk s.data.dropLast else s

/-- `parts = route.split("/")` after stripping one trailing slash. -/
def routeParts (route : String) : List String :=
  pySplit (stripTrailingSlash route) "/"

/-- The conversion check of `get_api_path_info` lines 205-210: every zipped
(path-param, segment) pair must convert without raising; a missing
`var_types` entry (`KeyError` inside the bare `except`) also fails. -/
def checkConvs (pi : PathInfo) (rem : List String) : Bool :=
  (pi.pathParams.zip rem).all fun pv =>
    match List.lookup pv.1 pi.varTypes with
    | some conv => (applyConv conv (PyVal.vstr pv.2)).isSome
    | none => false

/-- Result of scanning one prefix's descriptor list: the matching descriptor,
or a conversion failure (which raises `HttpException(404)`). -/
inductive ScanResult where
  | found : PathInfo → ScanResult
  | convFail : ScanResult
deriving DecidableEq, Repr

/-- The inner `for pathinfo in self.paths[cnt_path]` loop of
`get_api_path_info` (lines 202-211): skip descriptors whose path-parameter
count differs from the remaining segment count; at the first count match,
return it if all conversions succeed, else raise. `none` means the loop
fell through with no count match. -/
def scanDescs : List PathInfo → List String → Option ScanResult
  | [], _ => none
  | pi :: rest, rem =>
    if rem.length = pi.pathParams.length then
      if checkConvs pi rem then some (ScanResult.found pi) else some ScanResult.convFail
    else scanDescs rest rem

/-- `cnt_path = "/".join(parts[:i+1])`. -/
def prefixAt (parts : List String) (i : Nat) : String :=
  String.intercalate "/" (parts.take (i + 1))

/-- The descriptors registered under the candidate prefix for index `i`
(an absent key behaves like an empty descriptor list). -/
def descsAt (paths : Registry) (parts : List String) (i : Nat) : List PathInfo :=
  (List.lookup (prefixAt parts i) paths).getD []

/-- `parts[i+1:]`, the path segments left over for path parameters. -/
def remSegs (parts : List String) (i : Nat) : List String :=
  parts.drop (i + 1)

/-- The `while i >= 0` loop of `get_api_path_info` (lines 196-213), with the
counter `n+1` standing for the iteration at `i = n`: an unregistered prefix
or a prefix whose descriptors all mismatch in count falls through to `i-1`;
`resolveFrom 0 = .ok none` is the final `return None`. -/
def resolveFrom (paths : Registry) (parts : List String) : Nat → PyOutcome (Option PathInfo)
  | 0 => .ok none
  | n + 1 =>
    match scanDescs (descsAt paths parts n) (remSegs parts n) with
    | some (ScanResult.found pi) => .ok (some pi)
    | some ScanResult.convFail => .httpError 404 "No route found."
    | none => resolveFrom paths parts n

/-- `RegisteredPaths.get_api_path_info` (`src/core.py`, lines 192-213). -/
def getApiPathInfo (paths : Registry) (route : String) : PyOutcome (Option PathInfo) :=
  resolveFrom paths (routeParts route) (routeParts route).length

/-- Index `i` offers a structurally compatible descriptor: some descriptor
registered under the candidate prefix has exactly as many path parameters as
there are remaining segments. -/
def hasCountMatch (paths : Registry) (parts : List String) (i : Nat) : Prop :=
  ∃ d ∈ descsAt paths parts i, (remSegs parts i).length = d.pathParams.length

instance hasCountMatchDecidable (paths : Registry) (parts : List String) (i : Nat) :
    Decidable (hasCountMatch paths parts i) :=
  inferInstanceAs (Decidable (∃ d ∈ descsAt paths parts i, _ = _))

/-- The outcome the matcher commits to once it reaches index `i`: scan that
prefix's descriptor list in registration order and return the first count
match (or raise 404 on its conversion failure); no count match means the
search would continue and, per `hasCountMatch`, never find one. -/
def decideAt (paths : Registry) (parts : List String) (i : Nat) : PyOutcome (Option PathInfo) :=
  match scanDescs (descsAt paths parts i) (remSegs parts i) with
  | some (ScanResult.found pi) => .ok (some pi)
  | some ScanResult.convFail => .httpError 404 "No route found."
  | none => .ok none

/-- `MethodWisePathsInfo.get_api_route_path_info` (`src/core.py`, 225-229):
truncate the route at the first `?`, then resolve. -/
def getApiRoutePathInfo (reg : Method → Registry) (m : Method) (route : String) :
    PyOutcome (Option PathInfo) :=
  if route.data.contains '?' then
    getApiPathInfo (reg m) (String.mk (route.data.takeWhile (fun c => c != '?')))
  else
    getApiPathInfo (reg m) route

/-- `PathInfo.verify_path_params` (`src/core.py`, lines 45-53): zip the
descriptor's path-parameter iteration order with the positional segment
values; a failing converter (or a `KeyError` on `var_types`, caught by the
bare `except`) raises `HttpException(422, msg naming the parameter)`. -/
def verifyPathParams (pi : PathInfo) (args : List String) : PyOutcome (List (String × PyVal)) :=
  go (pi.pathParams.zip args) []
where
  go : List (String × String) → List (String × PyVal) → PyOutcome (List (String × PyVal))
    | [], acc => .ok acc
    | (p, pval) :: rest, acc =>
      match List.lookup p pi.varTypes with
      | none => .httpError 422 p
      | some conv =>
        match applyConv conv (PyVal.vstr pval) with
        | some v => go rest (upsert acc p v)
        | none => .httpError 422 p

/-- `PathInfo.verify_query_params` (`src/core.py`, lines 55-73), statement for
statement: the guard `if q not in kwargs and q in self.defaults` raises 422;
`self.var_types[q]` is read outside any `try` (`KeyError` escapes);
`self.defaults[q]` likewise; the conversion is tried and its failure raises
422; finally extra kwargs are appended with `pre_defined = False`. -/
def verifyQueryParams (pi : PathInfo) (kwargs : List (String × PyVal)) :
    PyOutcome (List (String × PyVal × Bool)) :=
  go pi.queryParams []
where
  go : List String → List (String × PyVal × Bool) → PyOutcome (List (String × PyVal × Bool))
    | [], acc =>
      .ok ((kwargs.filter (fun kv => !(pi.queryParams.contains kv.1))).foldl
        (fun acc kv => upsert acc kv.1 (kv.2, false)) acc)
    | q :: rest, acc =>
      if (List.lookup q kwargs).isNone && (List.lookup q pi.defaults).isSome then
        .httpError 422 q
      else
        match List.lookup q pi.varTypes with
        | none => .pyError "KeyError" q
        | some conv =>
          match (List.lookup q kwargs).orElse (fun _ => List.lookup q pi.defaults) with
          | none => .pyError "KeyError" q
          | some qval =>
            match applyConv conv qval with
            | some v => go rest (upsert acc q (v, true))
            | none => .httpError 422 q

/-- `Cookies.from_string` (`src/fastpy_rest/params.py`, lines 149-155):
split the header value on the two-character separator `"; "`, then destructure
`[k, v] = cookie.split("=")` — a piece with any number of `=` other than
exactly one raises `ValueError`; names and values are stripped. -/
def cookiesFromString (s : String) : PyOutcome (List (String × String)) :=
  go (pySplit s "; ") []
where
  go : List String → List (String × String) → PyOutcome (List (String × String))
    | [], acc => .ok acc
    | piece :: rest, acc =>
      match pySplit piece "=" with
      | [k, v] => go rest (upsert acc (pyStrip k) (pyStrip v))
      | _ => .pyError "ValueError" piece

/-- `PathInfo.verify_cookies` (`src/core.py`, lines 75-90): parse the header,
then for each declared cookie parameter require presence or a default
(`HttpException(422)` otherwise), read `var_types` (uncaught `KeyError` if
absent), convert and overwrite the entry; conversion failure raises 422. -/
def verifyCookies (pi : PathInfo) (cookiesStr : String) : PyOutcome (List (String × PyVal)) :=
  match cookiesFromString cookiesStr with
  | .pyError a b => .pyError a b
  | .httpError a b => .httpError a b
  | .ok cmap0 => go pi.cookieParams (cmap0.map (fun p => (p.1, PyVal.vstr p.2)))
where
  go : List String → List (String × PyVal) → PyOutcome (List (String × PyVal))
    | [], cur => .ok cur
    | c :: rest, cur =>
      if (List.lookup c cur).isNone && (List.lookup c pi.defaults).isNone then
        .httpError 422 c
      else
        match List.lookup c pi.varTypes with
        | none => .pyError "KeyError" c
        | some conv =>
          let cval := ((List.lookup c cur).orElse (fun _ => List.lookup c pi.defaults)).getD
            PyVal.noneV
          match applyConv conv cval with
          | some v => go rest (upsert cur c v)
          | none => .httpError 422 c

/-- The error write of `RequestHandler.handle_request`
(`src/fastpy_rest/main.py`, lines 155-162): a raised `HttpException` has
`write_to_stream` and emits its own status line; any other exception lacks it,
so the fallback writes `Response(500)`.  `none` means no error was raised. -/
def writtenErrorStatus {α : Type} : PyOutcome α → Option Nat
  | .ok _ => none
  | .httpError code _ => some code
  | .pyError _ _ => some 500

/-- Python `sub in s` substring containment. -/
def strContains (s sub : String) : Bool :=
  (List.range (s.length + 1)).any (fun i => sub.data.isPrefixOf (s.data.drop i))

/-- The body-reading step of `Request.load_from_reader`
(`src/fastpy_rest/requests.py`, lines 85-90): `body` starts as `None`; when
`Content-Length > 0`, exactly that many bytes are read (`readexactly`, which
raises if the stream is shorter); only when a `Content-Type` is present and
contains `application/json` is the body decoded (`jsonLoads` standing for
`json.loads`); in every other case `body` is left as `None`.  Returns the
body and the unconsumed remainder of the stream. -/
def readBody (jsonLoads : String → PyVal) (contentLength : Option Int)
    (contentType : Option String) (stream : List Char) :
    PyOutcome (Option PyVal × List Char) :=
  match contentLength with
  | none => .ok (none, stream)
  | some cl =>
    if 0 < cl then
      if stream.length < cl.toNat then .pyError "IncompleteReadError" ""
      else
        let bodyData := stream.take cl.toNat
        let rest := stream.drop cl.toNat
        match contentType with
        | some ct =>
          if strContains ct "application/json" then .ok (some (jsonLoads (String.mk bodyData)), rest)
          else .ok (none, rest)
        | none => .ok (none, rest)
    else .ok (none, stream)

/-- `[m, p, v]`-shaped destructuring of the request line parts. -/
def requestLineParts : List String → Option (String × String × String)
  | [m, p, v] => some (m, p, v)
  | _ => none

/-- `method, path, _ = request_line.decode().strip().split(" ")`
(`src/fastpy_rest/requests.py`, line 55): anything but exactly three
space-separated parts raises `ValueError`. -/
def parseRequestLine (line : String) : PyOutcome (String × String × String) :=
  match requestLineParts (pySplit (pyStrip line) " ") with
  | some t => .ok t
  | none => .pyError "ValueError" line

/-- Split a character list at the first occurrence of `c`. -/
def splitFirstChars (c : Char) : List Char → Option (List Char × List Char)
  | [] => none
  | x :: xs =>
    if x = c then some ([], xs)
    else (splitFirstChars c xs).map (fun p => (x :: p.1, p.2))

/-- `header_name, header_value = header.split(":", 1)` on the stripped header
line (`src/fastpy_rest/requests.py`, lines 74-78): a line with no `:` raises
`ValueError`. -/
def parseHeaderLine (hdr : String) : PyOutcome (String × String) :=
  match splitFirstChars ':' (pyStrip hdr).data with
  | some (n, v) => .ok (String.mk n, String.mk v)
  | none => .pyError "ValueError" hdr

/-- Literal `{` (written by code point to keep it out of string literals). -/
def lbraceC : Char := Char.ofNat 123

/-- Literal `}`. -/
def rbraceC : Char := Char.ofNat 125

/-- Match the regex tail `[^{}]+\}` right after an opening brace: collect
non-brace characters until a closing brace; empty content or a second opening
brace means the regex does not match at this position. -/
def takeTok : List Char → List Char → Option (String × List Char)
  | [], _ => none
  | c :: rest, acc =>
    if c = rbraceC then
      if acc.isEmpty then none else some (String.mk acc.reverse, rest)
    else if c = lbraceC then none
    else takeTok rest (c :: acc)

/-- `re.findall(r'\{([^{}]+)\}', route)`: all brace-token contents in template
order (fuelled scan; the fuel is the character count, enough because every
successful match consumes at least two characters). -/
def braceTokens : Nat → List Char → List String
  | 0, _ => []
  | _, [] => []
  | fuel + 1, c :: rest =>
    if c = lbraceC then
      match takeTok rest [] with
      | some (tok, rest') => tok :: braceTokens fuel rest'
      | none => braceTokens fuel rest
    else braceTokens fuel rest

/-- `re.split(r'\{([^{}]+)\}', route, 1)[0]`: the text before the first
brace-token match (the whole string when there is none). -/
def textBeforeTok : Nat → List Char → List Char → String
  | 0, _, acc => String.mk acc.reverse
  | _, [], acc => String.mk acc.reverse
  | fuel + 1, c :: rest, acc =>
    if c = lbraceC then
      match takeTok rest [] with
      | some _ => String.mk acc.reverse
      | none => textBeforeTok fuel rest (c :: acc)
    else textBeforeTok fuel rest (c :: acc)

/-- `RegisteredPaths._get_path_params` (`src/core.py`, lines 132-136):
the literal prefix before the first `{name}` token and the token names in
template order. -/
def getPathParams (route : String) : String × List String :=
  (textBeforeTok route.data.length route.data [], braceTokens route.data.length route.data)

/-- A handler signature as seen by `inspect.getfullargspec`: positional
argument names, the annotations dict in declaration order (possibly ending
with `return`), and the trailing default values. -/
structure HandlerSig where
  args : List String
  annotations : List (String × Conv)
  defaults : List PyVal
deriving DecidableEq, Repr

/-- Accumulator of the classification loop in `add_api_route`. -/
structure ClassAcc where
  queries : List String
  headerNames : List String
  cookieNames : List String
  body : Option String
  requestP : Option String
deriving DecidableEq, Repr

/-- `isinstance(default, BaseModel)`. -/
def isModelInstance : PyVal → Bool
  | .modelV _ => true
  | _ => false

/-- `RegisteredPaths.add_api_route` (`src/core.py`, lines 138-190): extract
the template's path parameters, align trailing defaults with argument names,
then classify every annotated parameter in declaration order —
`isinstance(default, Headers)` → header, `isinstance(default, Cookies)` →
cookie, path-parameter name or `return` → skipped, `isinstance(default,
BaseModel)` → body, annotation `Request` → context, else query.  Returns the
registry key (the literal prefix with one trailing `/` stripped) and the
descriptor; the descriptor's `pathParams` is the set of template names, whose
Python iteration order is hash-dependent — `dedup` records just one order. -/
def addRouteDescriptor (route : String) (sig : HandlerSig) : String × PathInfo :=
  let pp := getPathParams route
  let params := pp.2
  let defaultsDict := (sig.args.drop (sig.args.length - sig.defaults.length)).zip sig.defaults
  let acc := sig.annotations.foldl
    (fun (acc : ClassAcc) va =>
      let d := (List.lookup va.1 defaultsDict).getD PyVal.noneV
      if d = PyVal.headersV then
        ⟨acc.queries, acc.headerNames ++ [va.1], acc.cookieNames, acc.body, acc.requestP⟩
      else if d = PyVal.cookiesV then
        ⟨acc.queries, acc.headerNames, acc.cookieNames ++ [va.1], acc.body, acc.requestP⟩
      else if params.contains va.1 || va.1 == "return" then acc
      else if isModelInstance d then
        ⟨acc.queries, acc.headerNames, acc.cookieNames, some va.1, acc.requestP⟩
      else if va.2 = Conv.crequest then
        ⟨acc.queries, acc.headerNames, acc.cookieNames, acc.body, some va.1⟩
      else
        ⟨acc.queries ++ [va.1], acc.headerNames, acc.cookieNames, acc.body, acc.requestP⟩)
    ⟨[], [], [], none, none⟩
  (stripTrailingSlash pp.1,
    ⟨route, params.dedup, acc.queries, acc.headerNames, acc.cookieNames,
      defaultsDict, sig.annotations, acc.body, acc.requestP⟩)

/-- Whether the captured (already case-folded) `Content-Type` exists and
contains `application/json`. -/
def ctMentionsJson : Option String → Bool
  | none => false
  | some ct => strContains ct "application/json"

lemma scanDescs_eq_none_iff (ds : List PathInfo) (rem : List String) :
    scanDescs ds rem = none ↔ ∀ d ∈ ds, rem.length ≠ d.pathParams.length := by
  induction ds with
  | nil => simp [scanDescs]
  | cons d ds ih =>
    by_cases h : rem.length = d.pathParams.length
    · by_cases hc : checkConvs d rem <;> simp [scanDescs, h, hc]
    · simp [scanDescs, h, ih]

lemma hasCountMatch_iff_scan_ne_none (paths : Registry) (parts : List String) (i : Nat) :
    hasCountMatch paths parts i ↔ scanDescs (descsAt paths parts i) (remSegs parts i) ≠ none := by
  rw [Ne, scanDescs_eq_none_iff, hasCountMatch]
  push_neg
  rfl

lemma resolveFrom_skip (paths : Registry) (parts : List String) (n : Nat)
    (h : ¬ hasCountMatch paths parts n) :
    resolveFrom paths parts (n + 1) = resolveFrom paths parts n := by
  have hscan : scanDescs (descsAt paths parts n) (remSegs parts n) = none := by
    by_contra hne
    exact h ((hasCountMatch_iff_scan_ne_none paths parts n).mpr hne)
  simp [resolveFrom, hscan]

lemma resolveFrom_ok_none_iff (paths : Registry) (parts : List String) (n : Nat) :
    resolveFrom paths parts n = .ok none ↔ ∀ i < n, ¬ hasCountMatch paths parts i := by
  induction n with
  | zero => simp [resolveFrom]
  | succ n ih =>
    rcases hscan : scanDescs (descsAt paths parts n) (remSegs parts n) with _ | r
    · have hn : ¬ hasCountMatch paths parts n := fun hcm =>
        (hasCountMatch_iff_scan_ne_none paths parts n).mp hcm hscan
      rw [resolveFrom_skip paths parts n hn, ih]
      constructor
      · intro h i hi
        rcases Nat.lt_succ_iff_lt_or_eq.mp hi with hi' | rfl
        · exact h i hi'
        · exact hn
      · intro h i hi
        exact h i (Nat.lt_succ_of_lt hi)
    · have hn : hasCountMatch paths parts n :=
        (hasCountMatch_iff_scan_ne_none paths parts n).mpr (by simp [hscan])
      cases r with
      | found pi => simp [resolveFrom, hscan]; exact ⟨n, Nat.lt_succ_self n, hn⟩
      | convFail => simp [resolveFrom, hscan]; exact ⟨n, Nat.lt_succ_self n, hn⟩

lemma resolveFrom_decideAt (paths : Registry) (parts : List String) (i : Nat) :
    ∀ n, i < n → hasCountMatch paths parts i →
      (∀ j < n, i < j → ¬ hasCountMatch paths parts j) →
      resolveFrom paths parts n = decideAt paths parts i := by
  intro n
  induction n with
  | zero => intro h; exact absurd h (Nat.not_lt_zero i)
  | succ n ih =>
    intro hin hcm hmax
    rcases Nat.lt_succ_iff_lt_or_eq.mp hin with hin' | rfl
    · have hn : ¬ hasCountMatch paths parts n := hmax n (Nat.lt_succ_self n) hin'
      rw [resolveFrom_skip paths parts n hn]
      exact ih hin' hcm (fun j hj hij => hmax j (Nat.lt_succ_of_lt hj) hij)
    · have hscan := (hasCountMatch_iff_scan_ne_none paths parts i).mp hcm
      rcases hs : scanDescs (descsAt paths parts i) (remSegs parts i) with _ | r
      · exact absurd hs hscan
      · cases r with
        | found pi => simp [resolveFrom, decideAt, hs]
        | convFail => simp [resolveFrom, decideAt, hs]

lemma scanDescs_append_skip (rem : List String) (l : List PathInfo) :
    ∀ front : List PathInfo, (∀ d ∈ front, rem.length ≠ d.pathParams.length) →
      scanDescs (front ++ l) rem = scanDescs l rem := by
  intro front
  induction front with
  | nil => intro _; rfl
  | cons d ds ih =>
    intro h
    have hd : rem.length ≠ d.pathParams.length := h d (List.mem_cons_self d ds)
    simp only [List.cons_append, scanDescs, if_neg hd]
    exact ih (fun d' hd' => h d' (List.mem_cons_of_mem d hd'))

/-- Claim C1: `Resolve(method, path)` follows the longest-prefix-first
algorithm of `get_api_path_info`: with `routeParts route` (the path with one
trailing `/` stripped, split on `/`), the first conjunct states that
not-found (`.ok none`, Python `return None`) is returned exactly when no
truncation index offers a descriptor whose path-parameter count equals the
number of remaining segments (`hasCountMatch`); the second states that at the
largest index that does offer one (all longer prefixes being skipped, whether
unregistered or count-incompatible), the result is `decideAt`, i.e. the
prefix's descriptor list is scanned in registration order and the first
count-matching descriptor wins (returned, or `HttpException(404)` if a
segment fails its converter). -/
theorem claim_C1_longest_prefix_resolution (paths : Registry) (route : String) :
    (getApiPathInfo paths route = .ok none ↔
      ∀ i < (routeParts route).length, ¬ hasCountMatch paths (routeParts route) i)
  ∧ (∀ i < (routeParts route).length, hasCountMatch paths (routeParts route) i →
      (∀ j < (routeParts route).length, i < j → ¬ hasCountMatch paths (routeParts route) j) →
      getApiPathInfo paths route = decideAt paths (routeParts route) i) := by
  constructor
  · exact resolveFrom_ok_none_iff paths (routeParts route) (routeParts route).length
  · intro i hi hcm hmax
    exact resolveFrom_decideAt paths (routeParts route) i (routeParts route).length hi hcm hmax

/-- Witness for C1 at a concrete registry: one descriptor with one `int`
path parameter registered under `/items`; the request `/items/5` resolves at
truncation index 1 to that descriptor. -/
theorem claim_C1_witness :
    (1 < (routeParts "/items/5").length
      ∧ hasCountMatch [("/items", [⟨"/items/\x7bid\x7d", ["id"], [], [], [], [],
          [("id", Conv.cint)], none, none⟩])] (routeParts "/items/5") 1)
  ∧ getApiPathInfo [("/items", [⟨"/items/\x7bid\x7d", ["id"], [], [], [], [],
      [("id", Conv.cint)], none, none⟩])] "/items/5"
    = .ok (some ⟨"/items/\x7bid\x7d", ["id"], [], [], [], [],
      [("id", Conv.cint)], none, none⟩) := by
  refine ⟨⟨by decide, by decide⟩, ?_⟩
  have h := (claim_C1_longest_prefix_resolution
    [("/items", [⟨"/items/\x7bid\x7d", ["id"], [], [], [], [],
      [("id", Conv.cint)], none, none⟩])] "/items/5").2 1 (by decide) (by decide) (by decide)
  rw [h]
  decide

/-- Claim C2: at the deciding prefix (index `i`, every longer truncation
having no structurally compatible descriptor), when the first descriptor in
registration order whose path-parameter count equals the remaining segment
count (`front` holding only count mismatches) has a converter that rejects a
remaining segment (`checkConvs d ... = false`), resolution raises
`HttpException(404, "No route found.")` — for every possible tail `rest` of
sibling descriptors, so no sibling is retried, and the outcome is the 404 of
the matcher, not a 422 of the binder. -/
theorem claim_C2_conversion_failure_404 (paths : Registry) (route : String) (i : Nat)
    (front rest : List PathInfo) (d : PathInfo)
    (hi : i < (routeParts route).length)
    (hmax : ∀ j < (routeParts route).length, i < j →
      ¬ hasCountMatch paths (routeParts route) j)
    (hdescs : descsAt paths (routeParts route) i = front ++ d :: rest)
    (hfront : ∀ d' ∈ front, (remSegs (routeParts route) i).length ≠ d'.pathParams.length)
    (hcnt : (remSegs (routeParts route) i).length = d.pathParams.length)
    (hconv : checkConvs d (remSegs (routeParts route) i) = false) :
    getApiPathInfo paths route = .httpError 404 "No route found." := by
  have hcm : hasCountMatch paths (routeParts route) i := by
    refine ⟨d, ?_, hcnt⟩
    rw [hdescs]
    exact List.mem_append_right front (List.mem_cons_self d rest)
  have h := resolveFrom_decideAt paths (routeParts route) i (routeParts route).length hi hcm hmax
  rw [getApiPathInfo, h, decideAt, hdescs,
    scanDescs_append_skip (remSegs (routeParts route) i) (d :: rest) front hfront]
  simp [scanDescs, hcnt, hconv]

/-- Witness for C2: `/items/\x7bid\x7d` with `id : int` is the only
descriptor under `/items`; the request `/items/abc` fails `int("abc")` and
resolution raises the 404. -/
theorem claim_C2_witness :
    (1 < (routeParts "/items/abc").length
      ∧ checkConvs ⟨"/items/\x7bid\x7d", ["id"], [], [], [], [],
          [("id", Conv.cint)], none, none⟩ (remSegs (routeParts "/items/abc") 1) = false)
  ∧ getApiPathInfo [("/items", [⟨"/items/\x7bid\x7d", ["id"], [], [], [], [],
      [("id", Conv.cint)], none, none⟩])] "/items/abc"
    = .httpError 404 "No route found." := by
  refine ⟨⟨by decide, by decide⟩, ?_⟩
  exact claim_C2_conversion_failure_404
    [("/items", [⟨"/items/\x7bid\x7d", ["id"], [], [], [], [],
      [("id", Conv.cint)], none, none⟩])] "/items/abc" 1 [] []
    ⟨"/items/\x7bid\x7d", ["id"], [], [], [], [], [("id", Conv.cint)], none, none⟩
    (by decide) (by decide) (by decide) (by decide) (by decide) (by decide)

/-- Claim C3 (code bug): a descriptor declaring the required query parameter
`name : str` with no default, bound against a request with an empty query
map, does not fail with the claimed `HttpException(422)` naming `name`: the
inverted guard on line 58 of `src/core.py` (`q not in kwargs and q in
self.defaults`) lets control fall through to `self.defaults[q]`, which raises
an uncaught `KeyError("name")`, and the top-level error write then produces a
500 response instead of a 422. -/
theorem claim_C3_missing_required_query_keyerror :
    verifyQueryParams ⟨"/hello", [], ["name"], [], [], [],
      [("name", Conv.cstr)], none, none⟩ [] = .pyError "KeyError" "name"
  ∧ writtenErrorStatus (verifyQueryParams ⟨"/hello", [], ["name"], [], [], [],
      [("name", Conv.cstr)], none, none⟩ []) = some 500 := by
  exact ⟨by decide, by decide⟩

/-- Claim C4 (code bug): for the descriptor declaring `limit : int = 10`,
omitting `limit` from the query map does not bind the default 10 — the
inverted guard on line 58 of `src/core.py` raises `HttpException(422,
"limit not given in query params.")` precisely because `limit` has a
default; supplying `limit` as `"25"` does bind the converted `25`. -/
theorem claim_C4_default_fallthrough_rejected :
    verifyQueryParams ⟨"/list", [], ["limit"], [], [], [("limit", PyVal.vint 10)],
      [("limit", Conv.cint)], none, none⟩ [] = .httpError 422 "limit"
  ∧ verifyQueryParams ⟨"/list", [], ["limit"], [], [], [("limit", PyVal.vint 10)],
      [("limit", Conv.cint)], none, none⟩ [("limit", PyVal.vstr "25")]
    = .ok [("limit", PyVal.vint 25, true)] := by
  exact ⟨by decide, by decide⟩

/-- Claim C5 (code bug): classification of the repository's own example
handler `create_student(student: StudentIn) -> Student` registered at
`/createStudent`.  The annotation is a pydantic model type and `student` is
not a path parameter, yet because line 163 of `src/core.py` tests
`isinstance(default, BaseModel)` on the *default value* (here absent, so
`None`), the parameter is classified as a query parameter and the descriptor
has no body parameter; only adding a `BaseModel` *instance* as the default
makes it the body parameter. -/
theorem claim_C5_body_classified_by_default_value :
    ((addRouteDescriptor "/createStudent"
        ⟨["student"], [("student", Conv.cmodel "StudentIn"), ("return", Conv.cmodel "Student")],
          []⟩).2.body = none
      ∧ "student" ∈ (addRouteDescriptor "/createStudent"
        ⟨["student"], [("student", Conv.cmodel "StudentIn"), ("return", Conv.cmodel "Student")],
          []⟩).2.queryParams)
  ∧ (addRouteDescriptor "/createStudent"
      ⟨["student"], [("student", Conv.cmodel "StudentIn"), ("return", Conv.cmodel "Student")],
        [PyVal.modelV "StudentIn"]⟩).2.body = some "student" := by
  exact ⟨⟨by decide, by decide⟩, by decide⟩

/-- Claim C6 counterexample: with `Content-Length: 5` and `Content-Type:
text/plain`, the five body bytes `"hello"` are read off the stream but the
resulting body is `none` — the raw bytes are *not* retained as the request
body, refuting the claim's "otherwise the raw undecoded bytes are retained". -/
theorem claim_C6_counterexample :
    readBody (fun _ => PyVal.noneV) (some 5) (some "text/plain") "helloXY".data
      = .ok (none, "XY".data)
  ∧ (none : Option PyVal) ≠ some (PyVal.vstr "hello") := by
  exact ⟨by decide, by decide⟩

/-- Claim C6 as amended: when `Content-Length > 0` and the stream holds
enough bytes, exactly `Content-Length` bytes are consumed; the body is the
JSON decode of those bytes when the `Content-Type` header is present and
contains `application/json`, and `none` otherwise — the non-JSON bytes are
discarded, not retained. -/
theorem claim_C6_amended_body_read (jsonLoads : String → PyVal) (cl : Int)
    (ct : Option String) (stream : List Char)
    (hpos : 0 < cl) (hlen : cl.toNat ≤ stream.length) :
    readBody jsonLoads (some cl) ct stream
      = .ok (if ctMentionsJson ct then some (jsonLoads (String.mk (stream.take cl.toNat)))
          else none,
        stream.drop cl.toNat) := by
  rw [readBody]
  rw [if_pos hpos, if_neg (Nat.not_lt.mpr hlen)]
  cases ct with
  | none => simp [ctMentionsJson]
  | some ct =>
    by_cases h : strContains ct "application/json" <;> simp [ctMentionsJson, h]

/-- Witness for the amended C6 at `Content-Length: 3`, a JSON content type
and the five-byte stream `"abcde"`. -/
theorem claim_C6_amended_witness :
    ((0 : Int) < 3 ∧ (3 : Int).toNat ≤ "abcde".data.length)
  ∧ readBody (fun _ => PyVal.noneV) (some 3) (some "application/json") "abcde".data
      = .ok (some PyVal.noneV, "de".data) := by
  refine ⟨⟨by decide, by decide⟩, ?_⟩
  have h := claim_C6_amended_body_read (fun _ => PyVal.noneV) 3 (some "application/json")
    "abcde".data (by decide) (by decide)
  rw [h]
  decide

lemma requestLineParts_eq_none (l : List String) (h : l.length ≠ 3) :
    requestLineParts l = none := by
  rcases l with _ | ⟨a, _ | ⟨b, _ | ⟨c, _ | ⟨d, t⟩⟩⟩⟩ <;> first | rfl | exact absurd rfl h

lemma splitFirstChars_eq_none (c : Char) (l : List Char) (h : ∀ x ∈ l, x ≠ c) :
    splitFirstChars c l = none := by
  induction l with
  | nil => rfl
  | cons x xs ih =>
    have hx : x ≠ c := h x (List.mem_cons_self x xs)
    rw [splitFirstChars, if_neg hx, ih (fun y hy => h y (List.mem_cons_of_mem x hy))]
    rfl

/-- Claim C7 counterexample: the malformed request line `"GET /x\r\n"` (two
parts, not three) raises a plain `ValueError` — no `MalformedRequestError`
type exists — and the top-level error write falls back to a 500 response,
which is not in the 400 class. -/
theorem claim_C7_counterexample :
    writtenErrorStatus (parseRequestLine "GET /x\r\n") = some 500
  ∧ ¬ (400 ≤ 500 ∧ 500 < 500) := by
  exact ⟨by decide, by decide⟩

/-- Claim C7 as amended: a request line that does not split into exactly
three space-separated parts, and a header line containing no `:`, each raise
an untyped `ValueError`; since a `ValueError` has no `write_to_stream`, the
top-level handler's fallback writes a 500 "Internal Server Error" response —
not a 400-class one. -/
theorem claim_C7_amended_malformed_is_500 (line hdr : String)
    (hline : (pySplit (pyStrip line) " ").length ≠ 3)
    (hhdr : ∀ x ∈ (pyStrip hdr).data, x ≠ ':') :
    (parseRequestLine line = .pyError "ValueError" line
      ∧ writtenErrorStatus (parseRequestLine line) = some 500)
  ∧ (parseHeaderLine hdr = .pyError "ValueError" hdr
      ∧ writtenErrorStatus (parseHeaderLine hdr) = some 500) := by
  have h1 : requestLineParts (pySplit (pyStrip line) " ") = none :=
    requestLineParts_eq_none _ hline
  have h2 : splitFirstChars ':' (pyStrip hdr).data = none :=
    splitFirstChars_eq_none ':' _ hhdr
  refine ⟨⟨?_, ?_⟩, ?_, ?_⟩ <;>
    simp [parseRequestLine, parseHeaderLine, h1, h2, writtenErrorStatus]

/-- Witness for the amended C7 on the two-part request line `"GET /x\r\n"`
and the colon-free header line `"X-No-Colon-Header"`. -/
theorem claim_C7_amended_witness :
    ((pySplit (pyStrip "GET /x\r\n") " ").length ≠ 3
      ∧ ∀ x ∈ (pyStrip "X-No-Colon-Header").data, x ≠ ':')
  ∧ parseRequestLine "GET /x\r\n" = .pyError "ValueError" "GET /x\r\n"
  ∧ parseHeaderLine "X-No-Colon-Header" = .pyError "ValueError" "X-No-Colon-Header" := by
  refine ⟨⟨by decide, by decide⟩, ?_, ?_⟩
  · exact (claim_C7_amended_malformed_is_500 "GET /x\r\n" "X-No-Colon-Header"
      (by decide) (by decide)).1.1
  · exact (claim_C7_amended_malformed_is_500 "GET /x\r\n" "X-No-Colon-Header"
      (by decide) (by decide)).2.1

/-- Claim C8 counterexample: the cookie pair `a=1=2`, whose value contains a
further `=`, is not split at the first `=` into `a ↦ "1=2"`; the
destructuring `[k, v] = cookie.split("=")` sees three pieces and raises
`ValueError`. -/
theorem claim_C8_counterexample :
    cookiesFromString "a=1=2" = .pyError "ValueError" "a=1=2"
  ∧ (PyOutcome.pyError "ValueError" "a=1=2" : PyOutcome (List (String × String)))
      ≠ .ok [("a", "1=2")] := by
  exact ⟨by decide, by decide⟩

/-- Claim C8 as amended: the Cookie header is split on the two-character
separator `"; "` and each pair must contain exactly one `=` (anything else is
a hard `ValueError`); `"a=1; b=2"` parses to `{a: "1", b: "2"}`, and for a
handler declaring cookie parameter `a` (sentinel default `Cookies()`, `str`
annotation) the verified cookie map binds `a` to `"1"`. -/
theorem claim_C8_amended_cookie_parsing :
    cookiesFromString "a=1; b=2" = .ok [("a", "1"), ("b", "2")]
  ∧ verifyCookies ⟨"/c", [], [], [], ["a"], [("a", PyVal.cookiesV)],
      [("a", Conv.cstr)], none, none⟩ "a=1; b=2"
    = .ok [("a", PyVal.vstr "1"), ("b", PyVal.vstr "2")] := by
  exact ⟨by decide, by decide⟩

/-- Claim C9 (code bug): the template `/point/\x7bx\x7d/\x7by\x7d` yields the
ordered parameter names `["x", "y"]` (`_get_path_params`), but
`add_api_route` collapses them into a Python set whose iteration order is
hash-dependent; binding zips that order against the trailing segments
positionally (`verify_path_params`).  Under the template order the request
segments `["abc", "3"]` bind `x ↦ "abc", y ↦ 3`; under the equally possible
set order `["y", "x"]` the same request pairs `y` with `"abc"`, fails
`int("abc")` and raises `HttpException(422)` — the i-th segment is not
reliably bound to the i-th template name. -/
theorem claim_C9_path_param_order :
    getPathParams "/point/\x7bx\x7d/\x7by\x7d" = ("/point/", ["x", "y"])
  ∧ verifyPathParams ⟨"/point/\x7bx\x7d/\x7by\x7d", ["x", "y"], [], [], [], [],
      [("x", Conv.cstr), ("y", Conv.cint)], none, none⟩ ["abc", "3"]
    = .ok [("x", PyVal.vstr "abc"), ("y", PyVal.vint 3)]
  ∧ verifyPathParams ⟨"/point/\x7bx\x7d/\x7by\x7d", ["y", "x"], [], [], [], [],
      [("x", Conv.cstr), ("y", Conv.cint)], none, none⟩ ["abc", "3"]
    = .httpError 422 "y" := by
  exact ⟨by decide, by decide, by decide⟩

lemma takeWhile_ne_qmark_contains_false (l : List Char) :
    (l.takeWhile (fun c => c != '?')).contains '?' = false := by
  induction l with
  | nil => rfl
  | cons x xs ih =>
    by_cases h : x = '?'
    · simp [List.takeWhile_cons, h]
    · have hb : (x != '?') = true := by simp [h]
      simp only [List.takeWhile_cons, hb, if_true]
      simp [List.contains_cons, ih, h, Ne.symm h]
      intro hmem
      have hq := List.mem_takeWhile_imp hmem
      simp at hq

/-- Claim C10: resolution is invariant under the query string — for every
method and route containing `?`, `get_api_route_path_info` returns the same
outcome as on the portion of the route strictly before the first `?`
(`takeWhile (· != '?')`), because the method truncates the route at the
first `?` before consulting the registry. -/
theorem claim_C10_query_string_invariance (reg : Method → Registry) (m : Method)
    (route : String) (h : route.data.contains '?' = true) :
    getApiRoutePathInfo reg m route
      = getApiRoutePathInfo reg m (String.mk (route.data.takeWhile (fun c => c != '?'))) := by
  have hpre : (String.mk (route.data.takeWhile (fun c => c != '?'))).data.contains '?' = false :=
    takeWhile_ne_qmark_contains_false route.data
  simp only [getApiRoutePathInfo, h, hpre, if_true, Bool.false_eq_true, if_false]

/-- Witness for C10: with the empty registry, `GET /a?x=1` resolves the same
as its pre-`?` prefix. -/
theorem claim_C10_witness :
    ("/a?x=1".data.contains '?' = true)
  ∧ getApiRoutePathInfo (fun _ => []) Method.GET "/a?x=1"
      = getApiRoutePathInfo (fun _ => [])
          Method.GET (String.mk ("/a?x=1".data.takeWhile (fun c => c != '?'))) :=
  ⟨by decide, claim_C10_query_string_invariance (fun _ => []) Method.GET "/a?x=1" (by decide)⟩
